/-
Verification of the Soulvan AI threat-scoring and motif components.

Shallow embedding of:
  src/UnrealEngine5/Source/Soulvan/AI/SoulvanThreatService.cpp / .h
  src/UnrealEngine5/Source/Soulvan/AI/SoulvanMotifComponent.cpp / .h

The threat service is embedded over the real numbers (distances use a
Euclidean square root); the motif component is embedded over the rationals
(all of its arithmetic is rational), with engine component pointers that may
be null embedded as Option values.
-/
import Mathlib

/-- FMath.Clamp: clamp a value to the closed interval from lo to hi. -/
def clamp {α : Type} [LinearOrder α] (x lo hi : α) : α :=
  min (max x lo) hi

/-- FMath.Lerp: linear interpolation from a to b by t. -/
def lerp {α : Type} [Ring α] (a b t : α) : α :=
  a + (b - a) * t

theorem le_clamp {α : Type} [LinearOrder α] (x lo hi : α) (h : lo ≤ hi) :
    lo ≤ clamp x lo hi :=
  le_min (le_max_right x lo) h

theorem clamp_le {α : Type} [LinearOrder α] (x lo hi : α) : clamp x lo hi ≤ hi :=
  min_le_right _ _

theorem clamp_eq_self {α : Type} [LinearOrder α] {x lo hi : α}
    (h1 : lo ≤ x) (h2 : x ≤ hi) : clamp x lo hi = x := by
  unfold clamp
  rw [max_eq_left h1, min_eq_left h2]

theorem clamp_mono {α : Type} [LinearOrder α] {x y : α} (lo hi : α) (h : x ≤ y) :
    clamp x lo hi ≤ clamp y lo hi :=
  min_le_min (max_le_max h le_rfl) le_rfl

/-- FVector: a world-space position (only distance and the zero test are used). -/
structure Vec3 where
  x : ℝ
  y : ℝ
  z : ℝ

/-- FVector.Distance: Euclidean distance between two positions. -/
noncomputable def Vec3.dist (a b : Vec3) : ℝ :=
  Real.sqrt ((a.x - b.x) ^ 2 + (a.y - b.y) ^ 2 + (a.z - b.z) ^ 2)

/-- FVector.IsZero: all three components are zero. -/
def Vec3.IsZero (v : Vec3) : Prop :=
  v.x = 0 ∧ v.y = 0 ∧ v.z = 0

/-- The threat-weight configuration of UBTService_ThreatUpdate
(SoulvanThreatService.h, the five UPROPERTY fields of category Threat). -/
structure UBTService_ThreatUpdate where
  RivalWeight : ℝ
  PoliceWeight : ℝ
  SpeedWeight : ℝ
  DamageWeight : ℝ
  MaxSpeedKmh : ℝ

/-- The default weight values declared in SoulvanThreatService.h. -/
def defaultThreatService : UBTService_ThreatUpdate :=
  ⟨0.45, 0.35, 0.15, 0.05, 220⟩

/-- The inverse-proximity score 1 / max(1, d) computed for the rival and
for the police position in CalculateThreat. -/
noncomputable def proximityScore (d : ℝ) : ℝ :=
  1 / max 1 d

noncomputable instance (v : Vec3) : Decidable v.IsZero :=
  Classical.propDecidable _

/-- UBTService_ThreatUpdate.CalculateThreat (SoulvanThreatService.cpp lines
58-86).  A null Rival pointer is an absent rival; the police position is
treated as absent when it is the zero vector. -/
noncomputable def CalculateThreat (svc : UBTService_ThreatUpdate)
    (Rival : Option Vec3) (PolicePos : Vec3) (Speed Damage : ℝ)
    (SelfPos : Vec3) : ℝ :=
  clamp
    (svc.RivalWeight *
        (match Rival with
          | some r => proximityScore (Vec3.dist SelfPos r)
          | none => 0) +
      svc.PoliceWeight *
        (if PolicePos.IsZero then 0
         else proximityScore (Vec3.dist SelfPos PolicePos)) +
      svc.SpeedWeight * clamp (Speed / svc.MaxSpeedKmh) 0 1 +
      svc.DamageWeight * clamp Damage 0 1)
    0 1

/-- The triple of blackboard values written by one evaluation
(TickNode, SoulvanThreatService.cpp lines 49-56). -/
structure ThreatResult where
  threatLevel : ℝ
  speedKmh : ℝ
  motifIntensity : ℝ

/-- One threat evaluation: the body of TickNode after the world state has
been sampled (SoulvanThreatService.cpp lines 46-56): compute the threat,
pass the speed through, and derive the motif intensity by
clamp(0.4 + Threat * 0.6, 0, 1). -/
noncomputable def evaluate (svc : UBTService_ThreatUpdate)
    (Rival : Option Vec3) (PolicePos : Vec3) (SpeedKmh Damage : ℝ)
    (SelfPos : Vec3) : ThreatResult :=
  { threatLevel := CalculateThreat svc Rival PolicePos SpeedKmh Damage SelfPos
    speedKmh := SpeedKmh
    motifIntensity :=
      clamp (0.4 + CalculateThreat svc Rival PolicePos SpeedKmh Damage SelfPos * 0.6) 0 1 }

/-- EMotif: the closed motif enumeration (SoulvanMotifComponent.h). -/
inductive EMotif where
  | Storm
  | Calm
  | Cosmic
  | Oracle
deriving DecidableEq, BEq

/-- A Niagara overlay channel: its active flag and the value last written to
its EmissionRate float parameter. -/
structure NiagaraComponent where
  active : Bool
  emissionRate : ℚ
deriving DecidableEq

/-- The music audio component: the sound asset currently set on the bus
(by asset identity, or none), how many Play calls have been issued, and the
current pitch and volume multipliers. -/
structure AudioComponent where
  sound : Option ℕ
  playCount : ℕ
  pitchMultiplier : ℚ
  volumeMultiplier : ℚ
deriving DecidableEq

/-- USoulvanMotifComponent state: current motif and intensity, the four
possibly-null Niagara overlay components, the possibly-null music bus, and
the four possibly-null music assets (identified by asset id). -/
structure USoulvanMotifComponent where
  CurrentMotif : EMotif
  CurrentIntensity : ℚ
  StormRain : Option NiagaraComponent
  CalmFog : Option NiagaraComponent
  CosmicAurora : Option NiagaraComponent
  OracleRunes : Option NiagaraComponent
  MusicBus : Option AudioComponent
  StormMusic : Option ℕ
  CalmMusic : Option ℕ
  CosmicMusic : Option ℕ
  OracleMusic : Option ℕ
deriving DecidableEq

/-- Comp ? Comp->SetActive(b) : the null checks guarding SetActive in
UpdateVisualFX (SoulvanMotifComponent.cpp lines 42-45). -/
def setActiveOpt (c : Option NiagaraComponent) (b : Bool) : Option NiagaraComponent :=
  match c with
  | some n => some { n with active := b }
  | none => none

/-- USoulvanMotifComponent.SetNiagaraFloatParameter (SoulvanMotifComponent.cpp
lines 90-94): a no-op when the component is null, otherwise write the value;
only the EmissionRate parameter is ever written. -/
def SetNiagaraFloatParameter (c : Option NiagaraComponent) (v : ℚ) : Option NiagaraComponent :=
  match c with
  | some n => some { n with emissionRate := v }
  | none => none

/-- USoulvanMotifComponent.UpdateVisualFX (SoulvanMotifComponent.cpp lines
39-54): toggle the active flag of each overlay by motif equality, then write
BaseRate = Lerp(10, 200, Intensity) scaled per overlay kind. -/
def UpdateVisualFX (s : USoulvanMotifComponent) (Motif : EMotif) (Intensity : ℚ) :
    USoulvanMotifComponent :=
  let s1 := { s with
    StormRain := setActiveOpt s.StormRain (Motif == EMotif.Storm)
    CalmFog := setActiveOpt s.CalmFog (Motif == EMotif.Calm)
    CosmicAurora := setActiveOpt s.CosmicAurora (Motif == EMotif.Cosmic)
    OracleRunes := setActiveOpt s.OracleRunes (Motif == EMotif.Oracle) }
  let BaseRate : ℚ := lerp 10 200 Intensity
  { s1 with
    StormRain := SetNiagaraFloatParameter s1.StormRain BaseRate
    CalmFog := SetNiagaraFloatParameter s1.CalmFog (BaseRate * 0.5)
    CosmicAurora := SetNiagaraFloatParameter s1.CosmicAurora (BaseRate * 0.8)
    OracleRunes := SetNiagaraFloatParameter s1.OracleRunes (BaseRate * 0.6) }

/-- The switch over Motif selecting the target music asset in UpdateAudio
(SoulvanMotifComponent.cpp lines 61-76). -/
def selectMusic (s : USoulvanMotifComponent) (Motif : EMotif) : Option ℕ :=
  match Motif with
  | EMotif.Storm => s.StormMusic
  | EMotif.Calm => s.CalmMusic
  | EMotif.Cosmic => s.CosmicMusic
  | EMotif.Oracle => s.OracleMusic

/-- The effect of UpdateAudio on a non-null music bus: swap the sound and
issue Play only when the target is non-null and differs by identity from the
sound already on the bus, then always rewrite the pitch and volume
multipliers from the intensity (SoulvanMotifComponent.cpp lines 78-88). -/
def applyAudio (bus : AudioComponent) (TargetMusic : Option ℕ) (Intensity : ℚ) :
    AudioComponent :=
  let bus1 :=
    match TargetMusic with
    | some t =>
        if bus.sound = some t then bus
        else { bus with sound := some t, playCount := bus.playCount + 1 }
    | none => bus
  { bus1 with
    pitchMultiplier := lerp 0.95 1.08 Intensity
    volumeMultiplier := lerp 0.6 1 Intensity }

/-- USoulvanMotifComponent.UpdateAudio (SoulvanMotifComponent.cpp lines
56-88): a no-op when the music bus is null. -/
def UpdateAudio (s : USoulvanMotifComponent) (Motif : EMotif) (Intensity : ℚ) :
    USoulvanMotifComponent :=
  match s.MusicBus with
  | none => s
  | some bus => { s with MusicBus := some (applyAudio bus (selectMusic s Motif) Intensity) }

/-- USoulvanMotifComponent.SetMotif (SoulvanMotifComponent.cpp lines 28-37):
store the motif and the clamped intensity, then run the visual and audio
updates with the clamped intensity. -/
def SetMotif (s : USoulvanMotifComponent) (Motif : EMotif) (Intensity01 : ℚ) :
    USoulvanMotifComponent :=
  let s1 := { s with CurrentMotif := Motif, CurrentIntensity := clamp Intensity01 0 1 }
  UpdateAudio (UpdateVisualFX s1 Motif s1.CurrentIntensity) Motif s1.CurrentIntensity

/-- The Play-call count of the music bus (0 when the bus is null). -/
def busPlayCount (s : USoulvanMotifComponent) : ℕ :=
  match s.MusicBus with
  | some bus => bus.playCount
  | none => 0

/-- The pitch multiplier on the music bus (1 when the bus is null). -/
def busPitch (s : USoulvanMotifComponent) : ℚ :=
  match s.MusicBus with
  | some bus => bus.pitchMultiplier
  | none => 1

/-- The volume multiplier on the music bus (1 when the bus is null). -/
def busVolume (s : USoulvanMotifComponent) : ℚ :=
  match s.MusicBus with
  | some bus => bus.volumeMultiplier
  | none => 1

theorem setMotif_currentIntensity (s : USoulvanMotifComponent) (m : EMotif) (i : ℚ) :
    (SetMotif s m i).CurrentIntensity = clamp i 0 1 := by
  unfold SetMotif UpdateAudio UpdateVisualFX
  cases s.MusicBus <;> rfl

theorem setMotif_currentMotif (s : USoulvanMotifComponent) (m : EMotif) (i : ℚ) :
    (SetMotif s m i).CurrentMotif = m := by
  unfold SetMotif UpdateAudio UpdateVisualFX
  cases s.MusicBus <;> rfl

theorem setMotif_stormRain (s : USoulvanMotifComponent) (m : EMotif) (i : ℚ) :
    (SetMotif s m i).StormRain =
      SetNiagaraFloatParameter (setActiveOpt s.StormRain (m == EMotif.Storm))
        (lerp 10 200 (clamp i 0 1)) := by
  unfold SetMotif UpdateAudio UpdateVisualFX
  cases s.MusicBus <;> rfl

theorem setMotif_calmFog (s : USoulvanMotifComponent) (m : EMotif) (i : ℚ) :
    (SetMotif s m i).CalmFog =
      SetNiagaraFloatParameter (setActiveOpt s.CalmFog (m == EMotif.Calm))
        (lerp 10 200 (clamp i 0 1) * 0.5) := by
  unfold SetMotif UpdateAudio UpdateVisualFX
  cases s.MusicBus <;> rfl

theorem setMotif_cosmicAurora (s : USoulvanMotifComponent) (m : EMotif) (i : ℚ) :
    (SetMotif s m i).CosmicAurora =
      SetNiagaraFloatParameter (setActiveOpt s.CosmicAurora (m == EMotif.Cosmic))
        (lerp 10 200 (clamp i 0 1) * 0.8) := by
  unfold SetMotif UpdateAudio UpdateVisualFX
  cases s.MusicBus <;> rfl

theorem setMotif_oracleRunes (s : USoulvanMotifComponent) (m : EMotif) (i : ℚ) :
    (SetMotif s m i).OracleRunes =
      SetNiagaraFloatParameter (setActiveOpt s.OracleRunes (m == EMotif.Oracle))
        (lerp 10 200 (clamp i 0 1) * 0.6) := by
  unfold SetMotif UpdateAudio UpdateVisualFX
  cases s.MusicBus <;> rfl

theorem setMotif_musicBus (s : USoulvanMotifComponent) (m : EMotif) (i : ℚ) :
    (SetMotif s m i).MusicBus =
      match s.MusicBus with
      | none => none
      | some bus => some (applyAudio bus (selectMusic s m) (clamp i 0 1)) := by
  unfold SetMotif UpdateAudio UpdateVisualFX selectMusic
  cases s.MusicBus <;> cases m <;> rfl

theorem setMotif_selectMusic (s : USoulvanMotifComponent) (m m2 : EMotif) (i : ℚ) :
    selectMusic (SetMotif s m i) m2 = selectMusic s m2 := by
  unfold SetMotif UpdateAudio UpdateVisualFX selectMusic
  cases s.MusicBus <;> cases m2 <;> rfl

theorem proximityScore_le_one (d : ℝ) : proximityScore d ≤ 1 := by
  unfold proximityScore
  rw [div_le_one (lt_of_lt_of_le one_pos (le_max_left 1 d))]
  exact le_max_left 1 d

theorem proximityScore_nonneg (d : ℝ) : 0 ≤ proximityScore d := by
  unfold proximityScore
  exact le_of_lt (div_pos one_pos (lt_of_lt_of_le one_pos (le_max_left 1 d)))

theorem proximityScore_antitone {d1 d2 : ℝ} (h : d1 ≤ d2) :
    proximityScore d2 ≤ proximityScore d1 := by
  unfold proximityScore
  exact one_div_le_one_div_of_le (lt_of_lt_of_le one_pos (le_max_left 1 d1))
    (max_le_max le_rfl h)

theorem calculateThreat_nonneg (svc : UBTService_ThreatUpdate) (Rival : Option Vec3)
    (PolicePos : Vec3) (Speed Damage : ℝ) (SelfPos : Vec3) :
    0 ≤ CalculateThreat svc Rival PolicePos Speed Damage SelfPos := by
  unfold CalculateThreat
  exact le_clamp _ _ _ (by norm_num)

theorem calculateThreat_le_one (svc : UBTService_ThreatUpdate) (Rival : Option Vec3)
    (PolicePos : Vec3) (Speed Damage : ℝ) (SelfPos : Vec3) :
    CalculateThreat svc Rival PolicePos Speed Damage SelfPos ≤ 1 := by
  unfold CalculateThreat
  exact clamp_le _ _ _

/-- C1: for every weight configuration with all four weights and MaxSpeedKmh
positive, and for any self position, optional rival, police position, speed
and damage, the threat level returned by evaluate lies in [0, 1] and the
derived motif intensity lies in [0, 1]. -/
theorem evaluate_bounds (svc : UBTService_ThreatUpdate)
    (h1 : 0 < svc.RivalWeight) (h2 : 0 < svc.PoliceWeight)
    (h3 : 0 < svc.SpeedWeight) (h4 : 0 < svc.DamageWeight)
    (h5 : 0 < svc.MaxSpeedKmh)
    (Rival : Option Vec3) (PolicePos : Vec3) (SpeedKmh Damage : ℝ) (SelfPos : Vec3) :
    0 ≤ (evaluate svc Rival PolicePos SpeedKmh Damage SelfPos).threatLevel ∧
    (evaluate svc Rival PolicePos SpeedKmh Damage SelfPos).threatLevel ≤ 1 ∧
    0 ≤ (evaluate svc Rival PolicePos SpeedKmh Damage SelfPos).motifIntensity ∧
    (evaluate svc Rival PolicePos SpeedKmh Damage SelfPos).motifIntensity ≤ 1 := by
  refine ⟨?_, ?_, ?_, ?_⟩ <;> simp only [evaluate]
  · exact calculateThreat_nonneg svc Rival PolicePos SpeedKmh Damage SelfPos
  · exact calculateThreat_le_one svc Rival PolicePos SpeedKmh Damage SelfPos
  · exact le_clamp _ _ _ (by norm_num)
  · exact clamp_le _ _ _

/-- C1 witness: the bounds at the default weights on a concrete input. -/
theorem evaluate_bounds_witness :
    0 ≤ (evaluate defaultThreatService none ⟨0, 0, 0⟩ 50 0.3 ⟨0, 0, 0⟩).threatLevel ∧
    (evaluate defaultThreatService none ⟨0, 0, 0⟩ 50 0.3 ⟨0, 0, 0⟩).threatLevel ≤ 1 ∧
    0 ≤ (evaluate defaultThreatService none ⟨0, 0, 0⟩ 50 0.3 ⟨0, 0, 0⟩).motifIntensity ∧
    (evaluate defaultThreatService none ⟨0, 0, 0⟩ 50 0.3 ⟨0, 0, 0⟩).motifIntensity ≤ 1 :=
  evaluate_bounds defaultThreatService
    (by norm_num [defaultThreatService]) (by norm_num [defaultThreatService])
    (by norm_num [defaultThreatService]) (by norm_num [defaultThreatService])
    (by norm_num [defaultThreatService])
    none ⟨0, 0, 0⟩ 50 0.3 ⟨0, 0, 0⟩

/-- C2: for every produced ThreatResult, the motif intensity equals
clamp(0.4 + 0.6 * threatLevel, 0, 1) computed from that same evaluation; it
is never an independent input. -/
theorem motifIntensity_derived (svc : UBTService_ThreatUpdate)
    (Rival : Option Vec3) (PolicePos : Vec3) (SpeedKmh Damage : ℝ) (SelfPos : Vec3) :
    (evaluate svc Rival PolicePos SpeedKmh Damage SelfPos).motifIntensity =
      clamp (0.4 + 0.6 * (evaluate svc Rival PolicePos SpeedKmh Damage SelfPos).threatLevel)
        0 1 := by
  simp only [evaluate]
  congr 1
  ring

/-- C10: for every weight configuration and every input, the motif intensity
is at least 0.4: the threat level is clamped to [0, 1] before the affine map
0.4 + 0.6 * threat, so the result always lies in [0.4, 1]. -/
theorem motifIntensity_floor (svc : UBTService_ThreatUpdate)
    (Rival : Option Vec3) (PolicePos : Vec3) (SpeedKmh Damage : ℝ) (SelfPos : Vec3) :
    0.4 ≤ (evaluate svc Rival PolicePos SpeedKmh Damage SelfPos).motifIntensity ∧
    (evaluate svc Rival PolicePos SpeedKmh Damage SelfPos).motifIntensity ≤ 1 := by
  have h0 := calculateThreat_nonneg svc Rival PolicePos SpeedKmh Damage SelfPos
  have h1 := calculateThreat_le_one svc Rival PolicePos SpeedKmh Damage SelfPos
  simp only [evaluate]
  rw [clamp_eq_self (by linarith) (by linarith)]
  constructor <;> linarith

/-- C6: with no rival and a zero (absent) police position, both proximity
terms contribute exactly 0: the threat level equals
clamp(SpeedWeight * speedRisk + DamageWeight * damageRisk, 0, 1) for every
speed, damage, self position and weight configuration. -/
theorem absent_contributions (svc : UBTService_ThreatUpdate)
    (SpeedKmh Damage : ℝ) (SelfPos : Vec3) :
    (evaluate svc none ⟨0, 0, 0⟩ SpeedKmh Damage SelfPos).threatLevel =
      clamp (svc.SpeedWeight * clamp (SpeedKmh / svc.MaxSpeedKmh) 0 1 +
             svc.DamageWeight * clamp Damage 0 1) 0 1 := by
  simp only [evaluate, CalculateThreat]
  rw [if_pos (show Vec3.IsZero ⟨0, 0, 0⟩ from ⟨rfl, rfl, rfl⟩)]
  congr 1
  ring

/-- C5: when the rival and police positions are present, each proximity
score entering CalculateThreat is 1 / max(1, distance); in particular the
score is exactly 1 for every distance d with 0 ≤ d ≤ 1, and it never
exceeds 1. -/
theorem proximity_formula (svc : UBTService_ThreatUpdate) (r PolicePos : Vec3)
    (Speed Damage : ℝ) (SelfPos : Vec3) (hp : ¬ PolicePos.IsZero) :
    CalculateThreat svc (some r) PolicePos Speed Damage SelfPos =
      clamp (svc.RivalWeight * (1 / max 1 (Vec3.dist SelfPos r)) +
             svc.PoliceWeight * (1 / max 1 (Vec3.dist SelfPos PolicePos)) +
             svc.SpeedWeight * clamp (Speed / svc.MaxSpeedKmh) 0 1 +
             svc.DamageWeight * clamp Damage 0 1) 0 1 ∧
    (∀ d : ℝ, 0 ≤ d → d ≤ 1 → proximityScore d = 1) ∧
    (∀ d : ℝ, proximityScore d ≤ 1) := by
  refine ⟨?_, ?_, ?_⟩
  · simp only [CalculateThreat, proximityScore]
    rw [if_neg hp]
  · intro d _ hd1
    unfold proximityScore
    rw [max_eq_left hd1]
    norm_num
  · exact proximityScore_le_one

/-- C5 witness: a distance of one half saturates the proximity score at
exactly 1. -/
theorem proximity_formula_witness : proximityScore (1 / 2) = 1 :=
  (proximity_formula defaultThreatService ⟨0, 0, 0⟩ ⟨1, 0, 0⟩ 0 0 ⟨0, 0, 0⟩
    (fun h => one_ne_zero h.1)).2.1 (1 / 2) (by norm_num) (by norm_num)

/-- C3: at the default weights (0.45, 0.35, 0.15, 0.05, MaxSpeedKmh 220),
with the rival 10 units away, no police position, speed 110 km/h and damage
0.2, the evaluation yields rival proximity 0.1, police proximity 0, speed
risk 0.5, damage risk 0.2, threat level exactly 0.13 and motif intensity
exactly 0.478. -/
theorem example_evaluation :
    proximityScore (Vec3.dist ⟨0, 0, 0⟩ ⟨10, 0, 0⟩) = 0.1 ∧
    (if Vec3.IsZero ⟨0, 0, 0⟩ then (0 : ℝ)
     else proximityScore (Vec3.dist ⟨0, 0, 0⟩ ⟨0, 0, 0⟩)) = 0 ∧
    clamp ((110 : ℝ) / defaultThreatService.MaxSpeedKmh) 0 1 = 0.5 ∧
    clamp ((0.2 : ℝ)) 0 1 = 0.2 ∧
    (evaluate defaultThreatService (some ⟨10, 0, 0⟩) ⟨0, 0, 0⟩ 110 0.2 ⟨0, 0, 0⟩).threatLevel
      = 0.13 ∧
    (evaluate defaultThreatService (some ⟨10, 0, 0⟩) ⟨0, 0, 0⟩ 110 0.2 ⟨0, 0, 0⟩).motifIntensity
      = 0.478 := by
  have hdist : Vec3.dist ⟨0, 0, 0⟩ ⟨10, 0, 0⟩ = 10 := by
    unfold Vec3.dist
    rw [show ((⟨0, 0, 0⟩ : Vec3).x - (⟨10, 0, 0⟩ : Vec3).x) ^ 2 +
          ((⟨0, 0, 0⟩ : Vec3).y - (⟨10, 0, 0⟩ : Vec3).y) ^ 2 +
          ((⟨0, 0, 0⟩ : Vec3).z - (⟨10, 0, 0⟩ : Vec3).z) ^ 2 = (10 : ℝ) ^ 2 by norm_num]
    exact Real.sqrt_sq (by norm_num)
  have hprox : proximityScore 10 = 0.1 := by
    unfold proximityScore
    rw [max_eq_right (by norm_num : (1 : ℝ) ≤ 10)]
    norm_num
  have hzero : Vec3.IsZero ⟨0, 0, 0⟩ := ⟨rfl, rfl, rfl⟩
  have hspeed : clamp ((110 : ℝ) / 220) 0 1 = 0.5 := by
    rw [show (110 : ℝ) / 220 = 0.5 by norm_num]
    exact clamp_eq_self (by norm_num) (by norm_num)
  have hdmg : clamp ((0.2 : ℝ)) 0 1 = 0.2 := clamp_eq_self (by norm_num) (by norm_num)
  have hthreat :
      CalculateThreat defaultThreatService (some ⟨10, 0, 0⟩) ⟨0, 0, 0⟩ 110 0.2 ⟨0, 0, 0⟩
        = 0.13 := by
    unfold CalculateThreat
    rw [if_pos hzero]
    simp only [defaultThreatService, hdist, hprox]
    rw [hspeed, hdmg]
    rw [show (0.45 : ℝ) * 0.1 + 0.35 * 0 + 0.15 * 0.5 + 0.05 * 0.2 = 0.13 by norm_num]
    exact clamp_eq_self (by norm_num) (by norm_num)
  refine ⟨by rw [hdist]; exact hprox, by rw [if_pos hzero], ?_, hdmg, ?_, ?_⟩
  · simp only [defaultThreatService]
    exact hspeed
  · simp only [evaluate]
    exact hthreat
  · simp only [evaluate]
    rw [hthreat, show (0.4 : ℝ) + 0.13 * 0.6 = 0.478 by norm_num]
    exact clamp_eq_self (by norm_num) (by norm_num)

/-- A deliberately miscalibrated configuration with a negative rival weight,
used to show the monotonicity claim needs nonnegative weights. -/
def negativeRivalService : UBTService_ThreatUpdate :=
  ⟨-0.5, 0, 0.9, 0, 220⟩

/-- C4 counterexample: the claim is false over arbitrary weight
configurations.  With RivalWeight = -0.5, SpeedWeight = 0.9 and speed at the
maximum, moving the rival from 2 units away to 1 unit away strictly
decreases the threat level (from 0.65 to 0.4). -/
theorem threat_monotone_counterexample :
    Vec3.dist ⟨0, 0, 0⟩ ⟨1, 0, 0⟩ < Vec3.dist ⟨0, 0, 0⟩ ⟨2, 0, 0⟩ ∧
    CalculateThreat negativeRivalService (some ⟨2, 0, 0⟩) ⟨0, 0, 0⟩ 220 0 ⟨0, 0, 0⟩
      = 0.65 ∧
    CalculateThreat negativeRivalService (some ⟨1, 0, 0⟩) ⟨0, 0, 0⟩ 220 0 ⟨0, 0, 0⟩
      = 0.4 ∧
    CalculateThreat negativeRivalService (some ⟨1, 0, 0⟩) ⟨0, 0, 0⟩ 220 0 ⟨0, 0, 0⟩ <
      CalculateThreat negativeRivalService (some ⟨2, 0, 0⟩) ⟨0, 0, 0⟩ 220 0 ⟨0, 0, 0⟩ := by
  have d1 : Vec3.dist ⟨0, 0, 0⟩ ⟨1, 0, 0⟩ = 1 := by
    unfold Vec3.dist
    rw [show ((⟨0, 0, 0⟩ : Vec3).x - (⟨1, 0, 0⟩ : Vec3).x) ^ 2 +
          ((⟨0, 0, 0⟩ : Vec3).y - (⟨1, 0, 0⟩ : Vec3).y) ^ 2 +
          ((⟨0, 0, 0⟩ : Vec3).z - (⟨1, 0, 0⟩ : Vec3).z) ^ 2 = (1 : ℝ) ^ 2 by norm_num]
    exact Real.sqrt_sq (by norm_num)
  have d2 : Vec3.dist ⟨0, 0, 0⟩ ⟨2, 0, 0⟩ = 2 := by
    unfold Vec3.dist
    rw [show ((⟨0, 0, 0⟩ : Vec3).x - (⟨2, 0, 0⟩ : Vec3).x) ^ 2 +
          ((⟨0, 0, 0⟩ : Vec3).y - (⟨2, 0, 0⟩ : Vec3).y) ^ 2 +
          ((⟨0, 0, 0⟩ : Vec3).z - (⟨2, 0, 0⟩ : Vec3).z) ^ 2 = (2 : ℝ) ^ 2 by norm_num]
    exact Real.sqrt_sq (by norm_num)
  have p1 : proximityScore 1 = 1 := by
    unfold proximityScore
    rw [max_self]
    norm_num
  have p2 : proximityScore 2 = 0.5 := by
    unfold proximityScore
    rw [max_eq_right (by norm_num : (1 : ℝ) ≤ 2)]
    norm_num
  have hzero : Vec3.IsZero ⟨0, 0, 0⟩ := ⟨rfl, rfl, rfl⟩
  have hs : clamp ((220 : ℝ) / 220) 0 1 = 1 := by
    rw [show (220 : ℝ) / 220 = 1 by norm_num]
    exact clamp_eq_self (by norm_num) (by norm_num)
  have hd : clamp ((0 : ℝ)) 0 1 = 0 := clamp_eq_self le_rfl (by norm_num)
  have t2 : CalculateThreat negativeRivalService (some ⟨2, 0, 0⟩) ⟨0, 0, 0⟩ 220 0 ⟨0, 0, 0⟩
      = 0.65 := by
    unfold CalculateThreat
    rw [if_pos hzero]
    simp only [negativeRivalService, d2, p2]
    rw [hs, hd]
    rw [show (-0.5 : ℝ) * 0.5 + 0 * 0 + 0.9 * 1 + 0 * 0 = 0.65 by norm_num]
    exact clamp_eq_self (by norm_num) (by norm_num)
  have t1 : CalculateThreat negativeRivalService (some ⟨1, 0, 0⟩) ⟨0, 0, 0⟩ 220 0 ⟨0, 0, 0⟩
      = 0.4 := by
    unfold CalculateThreat
    rw [if_pos hzero]
    simp only [negativeRivalService, d1, p1]
    rw [hs, hd]
    rw [show (-0.5 : ℝ) * 1 + 0 * 0 + 0.9 * 1 + 0 * 0 = 0.4 by norm_num]
    exact clamp_eq_self (by norm_num) (by norm_num)
  refine ⟨by rw [d1, d2]; norm_num, t2, t1, by rw [t1, t2]; norm_num⟩

/-- C4 (amended): with the four weights nonnegative and MaxSpeedKmh
positive, decreasing the distance from self to a present rival or to a
present police position never decreases the threat level, and increasing
the speed or the damage fraction never decreases the threat level.  The
nonnegativity hypotheses are necessary: see the counterexample above. -/
theorem threat_monotone (svc : UBTService_ThreatUpdate)
    (hr : 0 ≤ svc.RivalWeight) (hp : 0 ≤ svc.PoliceWeight)
    (hs : 0 ≤ svc.SpeedWeight) (hd : 0 ≤ svc.DamageWeight)
    (hm : 0 < svc.MaxSpeedKmh) :
    (∀ SelfPos r1 r2 PolicePos Speed Damage,
      Vec3.dist SelfPos r1 ≤ Vec3.dist SelfPos r2 →
      CalculateThreat svc (some r2) PolicePos Speed Damage SelfPos ≤
        CalculateThreat svc (some r1) PolicePos Speed Damage SelfPos) ∧
    (∀ SelfPos Rival p1 p2 Speed Damage, ¬ Vec3.IsZero p1 → ¬ Vec3.IsZero p2 →
      Vec3.dist SelfPos p1 ≤ Vec3.dist SelfPos p2 →
      CalculateThreat svc Rival p2 Speed Damage SelfPos ≤
        CalculateThreat svc Rival p1 Speed Damage SelfPos) ∧
    (∀ SelfPos Rival PolicePos s1 s2 Damage, s1 ≤ s2 →
      CalculateThreat svc Rival PolicePos s1 Damage SelfPos ≤
        CalculateThreat svc Rival PolicePos s2 Damage SelfPos) ∧
    (∀ SelfPos Rival PolicePos Speed d1 d2, d1 ≤ d2 →
      CalculateThreat svc Rival PolicePos Speed d1 SelfPos ≤
        CalculateThreat svc Rival PolicePos Speed d2 SelfPos) := by
  refine ⟨?_, ?_, ?_, ?_⟩
  · intro SelfPos r1 r2 PolicePos Speed Damage hdist
    have h := mul_le_mul_of_nonneg_left (proximityScore_antitone hdist) hr
    simp only [CalculateThreat]
    apply clamp_mono
    linarith
  · intro SelfPos Rival p1 p2 Speed Damage h1 h2 hdist
    have h := mul_le_mul_of_nonneg_left (proximityScore_antitone hdist) hp
    simp only [CalculateThreat]
    rw [if_neg h2, if_neg h1]
    apply clamp_mono
    linarith
  · intro SelfPos Rival PolicePos s1 s2 Damage hsp
    have hq : s1 / svc.MaxSpeedKmh ≤ s2 / svc.MaxSpeedKmh :=
      div_le_div_of_nonneg_right hsp hm.le
    have h := mul_le_mul_of_nonneg_left (clamp_mono 0 1 hq) hs
    simp only [CalculateThreat]
    apply clamp_mono
    linarith
  · intro SelfPos Rival PolicePos Speed d1 d2 hdm
    have h := mul_le_mul_of_nonneg_left (clamp_mono 0 1 hdm) hd
    simp only [CalculateThreat]
    apply clamp_mono
    linarith

/-- C4 witness: at the default weights, moving the rival from 2 units away
to 1 unit away does not decrease the threat level. -/
theorem threat_monotone_witness :
    CalculateThreat defaultThreatService (some ⟨2, 0, 0⟩) ⟨0, 0, 0⟩ 110 0.2 ⟨0, 0, 0⟩ ≤
      CalculateThreat defaultThreatService (some ⟨1, 0, 0⟩) ⟨0, 0, 0⟩ 110 0.2 ⟨0, 0, 0⟩ :=
  (threat_monotone defaultThreatService
    (by norm_num [defaultThreatService]) (by norm_num [defaultThreatService])
    (by norm_num [defaultThreatService]) (by norm_num [defaultThreatService])
    (by norm_num [defaultThreatService])).1
    ⟨0, 0, 0⟩ ⟨1, 0, 0⟩ ⟨2, 0, 0⟩ ⟨0, 0, 0⟩ 110 0.2
    (by unfold Vec3.dist; exact Real.sqrt_le_sqrt (by norm_num))

theorem applyAudio_pitch (bus : AudioComponent) (t : Option ℕ) (i : ℚ) :
    (applyAudio bus t i).pitchMultiplier = lerp 0.95 1.08 i := rfl

theorem applyAudio_volume (bus : AudioComponent) (t : Option ℕ) (i : ℚ) :
    (applyAudio bus t i).volumeMultiplier = lerp 0.6 1 i := rfl

theorem applyAudio_sound_some (bus : AudioComponent) (t : ℕ) (i : ℚ) :
    (applyAudio bus (some t) i).sound = some t := by
  unfold applyAudio
  by_cases h : bus.sound = some t <;> simp [h]

theorem applyAudio_playCount_none (bus : AudioComponent) (i : ℚ) :
    (applyAudio bus none i).playCount = bus.playCount := rfl

theorem applyAudio_playCount_eq (bus : AudioComponent) (t : ℕ) (i : ℚ)
    (h : bus.sound = some t) :
    (applyAudio bus (some t) i).playCount = bus.playCount := by
  unfold applyAudio
  simp [h]

theorem applyAudio_playCount_swap (bus : AudioComponent) (t : ℕ) (i : ℚ)
    (h : bus.sound ≠ some t) :
    (applyAudio bus (some t) i).playCount = bus.playCount + 1 := by
  unfold applyAudio
  simp [h]

theorem applyAudio_playCount_idem (bus : AudioComponent) (t : Option ℕ) (i j : ℚ) :
    (applyAudio (applyAudio bus t i) t j).playCount = (applyAudio bus t i).playCount := by
  cases t with
  | none => exact applyAudio_playCount_none _ _
  | some t => exact applyAudio_playCount_eq _ t _ (applyAudio_sound_some bus t i)

theorem busPlayCount_setMotif (s : USoulvanMotifComponent) (m : EMotif) (i : ℚ)
    (b : AudioComponent) (hb : s.MusicBus = some b) :
    busPlayCount (SetMotif s m i) =
      (applyAudio b (selectMusic s m) (clamp i 0 1)).playCount := by
  unfold busPlayCount
  rw [setMotif_musicBus, hb]

/-- C7: SetMotif clamps the intensity argument to [0, 1] unconditionally
before storing it; in particular SetMotif with motif Calm and intensity 1.3
stores intensity exactly 1 and writes the Calm overlay emission rate
lerp(10, 200, 1) * 0.5 = 100. -/
theorem setMotif_clamps (s : USoulvanMotifComponent) (m : EMotif) (i : ℚ)
    (o : NiagaraComponent) (h : s.CalmFog = some o) :
    (0 ≤ (SetMotif s m i).CurrentIntensity ∧ (SetMotif s m i).CurrentIntensity ≤ 1) ∧
    (SetMotif s EMotif.Calm 1.3).CurrentIntensity = 1 ∧
    (SetMotif s EMotif.Calm 1.3).CalmFog = some ⟨true, 100⟩ := by
  have hc : clamp ((1.3 : ℚ)) 0 1 = 1 := by
    unfold clamp
    rw [max_eq_left (by norm_num : (0 : ℚ) ≤ 1.3),
      min_eq_right (by norm_num : (1 : ℚ) ≤ 1.3)]
  refine ⟨⟨?_, ?_⟩, ?_, ?_⟩
  · rw [setMotif_currentIntensity]
    exact le_clamp _ _ _ (by norm_num)
  · rw [setMotif_currentIntensity]
    exact clamp_le _ _ _
  · rw [setMotif_currentIntensity, hc]
  · rw [setMotif_calmFog, h, hc]
    simp only [setActiveOpt, SetNiagaraFloatParameter, Option.some.injEq,
      NiagaraComponent.mk.injEq]
    exact ⟨rfl, by norm_num [lerp]⟩

/-- A concrete component state with all four overlays, a music bus with no
sound set yet, and one music asset per motif. -/
def sampleMotifState : USoulvanMotifComponent where
  CurrentMotif := EMotif.Storm
  CurrentIntensity := 0.5
  StormRain := some ⟨true, 0⟩
  CalmFog := some ⟨false, 0⟩
  CosmicAurora := some ⟨false, 0⟩
  OracleRunes := some ⟨false, 0⟩
  MusicBus := some ⟨none, 0, 1, 1⟩
  StormMusic := some 0
  CalmMusic := some 1
  CosmicMusic := some 2
  OracleMusic := some 3

/-- C7 witness: the Calm example evaluated on a concrete component state. -/
theorem setMotif_clamps_witness :
    (SetMotif sampleMotifState EMotif.Calm 1.3).CalmFog = some ⟨true, 100⟩ :=
  (setMotif_clamps sampleMotifState EMotif.Storm 0.7 ⟨false, 0⟩ rfl).2.2

/-- C8: for every motif and intensity, with all four overlay components
present, the base emission rate is lerp(10, 200, storedIntensity), each
overlay kind receives base times its fixed multiplier (Storm 1.0, Calm 0.5,
Cosmic 0.8, Oracle 0.6), exactly one overlay kind has its active flag true,
namely the kind equal to the selected motif, and the inactive kinds still
receive a computed rate value. -/
theorem overlay_rates (s : USoulvanMotifComponent) (m : EMotif) (i : ℚ)
    (o1 o2 o3 o4 : NiagaraComponent)
    (h1 : s.StormRain = some o1) (h2 : s.CalmFog = some o2)
    (h3 : s.CosmicAurora = some o3) (h4 : s.OracleRunes = some o4) :
    (SetMotif s m i).StormRain =
      some ⟨m == EMotif.Storm, lerp 10 200 (clamp i 0 1)⟩ ∧
    (SetMotif s m i).CalmFog =
      some ⟨m == EMotif.Calm, lerp 10 200 (clamp i 0 1) * 0.5⟩ ∧
    (SetMotif s m i).CosmicAurora =
      some ⟨m == EMotif.Cosmic, lerp 10 200 (clamp i 0 1) * 0.8⟩ ∧
    (SetMotif s m i).OracleRunes =
      some ⟨m == EMotif.Oracle, lerp 10 200 (clamp i 0 1) * 0.6⟩ ∧
    ((if m = EMotif.Storm then 1 else 0) + (if m = EMotif.Calm then 1 else 0) +
      (if m = EMotif.Cosmic then 1 else 0) + (if m = EMotif.Oracle then 1 else 0) : ℕ)
      = 1 := by
  refine ⟨?_, ?_, ?_, ?_, ?_⟩
  · rw [setMotif_stormRain, h1]
    rfl
  · rw [setMotif_calmFog, h2]
    rfl
  · rw [setMotif_cosmicAurora, h3]
    rfl
  · rw [setMotif_oracleRunes, h4]
    rfl
  · cases m <;> rfl

/-- C8 witness: the Cosmic overlay after a concrete SetMotif call. -/
theorem overlay_rates_witness :
    (SetMotif sampleMotifState EMotif.Cosmic (1 / 2)).CosmicAurora = some ⟨true, 84⟩ := by
  have h := (overlay_rates sampleMotifState EMotif.Cosmic (1 / 2)
    ⟨true, 0⟩ ⟨false, 0⟩ ⟨false, 0⟩ ⟨false, 0⟩ rfl rfl rfl rfl).2.2.1
  rw [h, clamp_eq_self (by norm_num) (by norm_num)]
  norm_num [lerp]
  rfl

/-- C9: calling SetMotif twice in a row with the same motif does not reissue
the track-start side effect: the Play count is unchanged by the second call;
a single call increments the Play count exactly when the selected track is
non-null and differs by identity from the sound on the bus; and the pitch
and volume multipliers are recomputed and applied on every call. -/
theorem trackSwap_suppression (s : USoulvanMotifComponent) (m : EMotif) (i1 i2 : ℚ)
    (b : AudioComponent) (hb : s.MusicBus = some b) :
    busPlayCount (SetMotif (SetMotif s m i1) m i2) = busPlayCount (SetMotif s m i1) ∧
    (selectMusic s m = none → busPlayCount (SetMotif s m i1) = b.playCount) ∧
    (∀ t, selectMusic s m = some t → b.sound = some t →
      busPlayCount (SetMotif s m i1) = b.playCount) ∧
    (∀ t, selectMusic s m = some t → b.sound ≠ some t →
      busPlayCount (SetMotif s m i1) = b.playCount + 1) ∧
    busPitch (SetMotif s m i1) = lerp 0.95 1.08 (clamp i1 0 1) ∧
    busVolume (SetMotif s m i1) = lerp 0.6 1 (clamp i1 0 1) := by
  have hA : (SetMotif s m i1).MusicBus =
      some (applyAudio b (selectMusic s m) (clamp i1 0 1)) := by
    rw [setMotif_musicBus, hb]
  refine ⟨?_, ?_, ?_, ?_, ?_, ?_⟩
  · rw [busPlayCount_setMotif (SetMotif s m i1) m i2 _ hA, setMotif_selectMusic,
      busPlayCount_setMotif s m i1 b hb]
    exact applyAudio_playCount_idem b (selectMusic s m) (clamp i1 0 1) (clamp i2 0 1)
  · intro ht
    rw [busPlayCount_setMotif s m i1 b hb, ht]
    exact applyAudio_playCount_none _ _
  · intro t ht hsound
    rw [busPlayCount_setMotif s m i1 b hb, ht]
    exact applyAudio_playCount_eq _ t _ hsound
  · intro t ht hsound
    rw [busPlayCount_setMotif s m i1 b hb, ht]
    exact applyAudio_playCount_swap _ t _ hsound
  · unfold busPitch
    rw [hA]
    exact applyAudio_pitch b (selectMusic s m) (clamp i1 0 1)
  · unfold busVolume
    rw [hA]
    exact applyAudio_volume b (selectMusic s m) (clamp i1 0 1)

/-- C9 witness: on a concrete state whose bus has no sound set, selecting
Storm issues exactly one Play call. -/
theorem trackSwap_suppression_witness :
    busPlayCount (SetMotif sampleMotifState EMotif.Storm 1) = 1 :=
  (trackSwap_suppression sampleMotifState EMotif.Storm 1 0 ⟨none, 0, 1, 1⟩ rfl).2.2.2.1
    0 rfl (by simp)
